import Mathlib

/-!
Verification of `src/server/api/chat.post.ts` (the dual-mode chat endpoint).

The TypeScript handler is shallowly embedded below.  Conventions:

* JS numbers are modelled as `ℚ`; a possibly-NaN JS number is `Option ℚ`
  with `none` playing the role of `NaN` (NaN-producing conversions and
  NaN-propagating addition are modelled explicitly).  Exact rational
  arithmetic stands in for IEEE doubles; the claims checked here do not
  hinge on binary rounding.
* JS strings are modelled as Lean `String`s; `length`/`slice` are modelled
  on code points (the addresses and symbols exercised here are ASCII).
* Fallible request fields are modelled by dedicated sum types recording
  the cases the handler distinguishes (absent/falsy, truthy non-array,
  array).
* The two library functions imported from `~/lib/ai-tools` that the demo
  path calls (`executeGetWalletBalances`, `executeFindYieldStrategies`)
  are not part of `src/`; the first is modelled from the spec, the second
  is kept as an explicit function parameter `find` (the spec fixes only
  its call contract, and every theorem below holds for an arbitrary
  deterministic implementation).
-/

namespace BeybChat

/-- JS runtime values as they can arrive in a JSON request body field
(restricted to the primitive shapes the handler inspects). -/
inductive JsValue where
  | num (q : ℚ)
  | str (s : String)
  | boolv (b : Bool)
  | nullv
  | undef
  deriving DecidableEq

/-- JS truthiness for `JsValue` (`0`, `""`, `false`, `null`, `undefined`
are falsy). -/
def JsValue.truthy : JsValue → Bool
  | .num q => if q = 0 then false else true
  | .str s => if s = "" then false else true
  | .boolv b => b
  | .nullv => false
  | .undef => false

/-- Decimal digit run to a natural number (big-endian). -/
def digitsToNat (cs : List Char) : ℕ :=
  cs.foldl (fun n c => 10 * n + (c.toNat - 48)) 0

/-- Unsigned decimal literal: `digits`, `digits.digits`, `digits.` or
`.digits`; anything else is `none` (NaN). -/
def parseUnsigned (cs : List Char) : Option ℚ :=
  let p := cs.span Char.isDigit
  match p.2 with
  | [] => if p.1.isEmpty then none else some (digitsToNat p.1)
  | '.' :: fracPart =>
      if fracPart.all Char.isDigit && !(p.1.isEmpty && fracPart.isEmpty) then
        some ((digitsToNat p.1 : ℚ) + (digitsToNat fracPart : ℚ) / (10 : ℚ) ^ fracPart.length)
      else none
  | _ => none

/-- Trim leading and trailing whitespace. -/
def trimWs (cs : List Char) : List Char :=
  ((cs.dropWhile Char.isWhitespace).reverse.dropWhile Char.isWhitespace).reverse

/-- Modelled from the spec: the JS builtin `Number(string)` conversion on
the plain decimal fragment (optional sign, digits, optional fractional
part, surrounding whitespace; the empty string is `0`).  Hex, exponent and
`Infinity` forms are outside the fragment this endpoint exercises.  `none`
is NaN. -/
def jsStringToNumber (s : String) : Option ℚ :=
  match trimWs s.data with
  | [] => some 0
  | '-' :: rest => (parseUnsigned rest).map Neg.neg
  | '+' :: rest => parseUnsigned rest
  | cs => parseUnsigned cs

/-- The JS builtin `Number(v)` conversion (`none` is NaN). -/
def JsValue.toNumber : JsValue → Option ℚ
  | .num q => some q
  | .str s => jsStringToNumber s
  | .boolv b => some (if b then 1 else 0)
  | .nullv => some 0
  | .undef => none

/-- JS `v || d`: the left operand when truthy, otherwise the default. -/
def jsOr (v d : JsValue) : JsValue :=
  if v.truthy then v else d

/-- IEEE-style addition on possibly-NaN numbers: NaN absorbs. -/
def nanAdd (a b : Option ℚ) : Option ℚ :=
  match a, b with
  | some x, some y => some (x + y)
  | _, _ => none

/-- A position as read by the handler.  The handler reads only
`position?.currentValue` (a nullish element of the array and a missing
field both read as `undefined`, i.e. `JsValue.undef`); all other position
fields are carried by the request but never inspected by this endpoint. -/
structure Position where
  currentValue : JsValue
  deriving DecidableEq

/-- The token object inside a balance; the demo path reads only
`token?.symbol`. -/
structure Token where
  symbol : Option String
  deriving DecidableEq

/-- A wallet balance entry as read by the handler
(`{ token: { symbol }, balance: decimal-string, valueUSD: number }`). -/
structure Balance where
  token : Option Token
  balance : String
  valueUSD : ℚ
  deriving DecidableEq

/-- A request field that the handler normalizes with
`Array.isArray(x) ? x : []`: absent (or otherwise falsy), a truthy
non-array value, or an actual array. -/
inductive ArrField (α : Type) where
  | absent
  | nonArray
  | arr (l : List α)
  deriving DecidableEq

/-- `Array.isArray(x) ? x : []` (chat.post.ts lines 62-63). -/
def ArrField.normalize : ArrField α → List α
  | .arr l => l
  | _ => []

/-- One chat message; the demo path never reads its fields. -/
structure ChatMessage where
  role : String
  content : String
  deriving DecidableEq

/-- The `messages` request field as the guard
`!messages || !Array.isArray(messages)` distinguishes it: falsy
(absent/null/empty-string/0/false), truthy non-array, or an array. -/
inductive MessagesField where
  | absent
  | nonArray
  | arr (ms : List ChatMessage)
  deriving DecidableEq

/-- The request body destructured on line 50. -/
structure Body where
  messages : MessagesField
  walletAddress : Option String
  mockBalances : ArrField Balance
  positions : ArrField Position

/-- A yield strategy as returned by the strategy search (spec §3). -/
structure Strategy where
  id : String
  name : String
  protocol : String
  apy : ℚ
  riskLevel : String
  deriving DecidableEq

/-- Result shape of `executeFindYieldStrategies`. -/
structure StrategyResult where
  strategies : List Strategy
  deriving DecidableEq

/-- Argument shape of `executeFindYieldStrategies`
(`{ tokens?, minAPY?, riskLevel? }`). -/
structure FindParams where
  tokens : Option (List String)
  minAPY : Option ℚ
  riskLevel : Option String
  deriving DecidableEq

/-- Result shape of `executeGetWalletBalances`. -/
structure BalancesResult where
  totalValueUSD : ℚ
  balances : List Balance
  deriving DecidableEq

/-- The summand of the reduce on lines 64-67:
`Number(position?.currentValue || 0)`. -/
def posContribution (p : Position) : Option ℚ :=
  JsValue.toNumber (jsOr p.currentValue (.num 0))

/-- Lines 64-67: `positionsList.reduce((sum, position) => sum +
Number(position?.currentValue || 0), 0)` with NaN propagation. -/
def totalPositionsValue (ps : List Position) : Option ℚ :=
  ps.foldl (fun sum p => nanAdd sum (posContribution p)) (some 0)

/-- Modelled from the spec: `executeGetWalletBalances` lives in
`~/lib/ai-tools`, which is not under `src/`.  Spec §4.3:
"`get_wallet_balances()` → returns total USD value and normalized balances
from the caller-supplied mock snapshot". -/
def executeGetWalletBalances (bs : List Balance) : BalancesResult :=
  { totalValueUSD := (bs.map Balance.valueUSD).sum, balances := bs }

/-- The optional-chain `balance?.token?.symbol`. -/
def symbolOf (b : Balance) : Option String :=
  b.token.bind Token.symbol

/-- Line 69: `balances.map((balance) => balance?.token?.symbol)
.filter(Boolean)` — `filter(Boolean)` drops `undefined` and `""`. -/
def tokenSymbols (bs : List Balance) : List String :=
  (bs.map symbolOf).filterMap (fun o =>
    match o with
    | some s => if s = "" then none else some s
    | none => none)

/-- Lines 70-72: the argument the demo path passes to
`executeFindYieldStrategies` — `{ tokens: tokenSymbols.length > 0 ?
tokenSymbols : undefined }`. -/
def demoFindParams (bs : List Balance) : FindParams :=
  let syms := tokenSymbols bs
  { tokens := if syms.length > 0 then some syms else none
    minAPY := none
    riskLevel := none }

/-- Stable insertion of a strategy into a list already sorted by
descending APY: `s` goes before the first element whose APY does not
exceed it (so an earlier element wins APY ties). -/
def insertApyDesc (s : Strategy) : List Strategy → List Strategy
  | [] => [s]
  | t :: ts => if t.apy ≤ s.apy then s :: t :: ts else t :: insertApyDesc s ts

/-- Lines 73-74: `[...strategyResult.strategies].sort((a, b) => b.apy -
a.apy)`.  `Array.prototype.sort` is a stable sort (ECMAScript 2019) and
this comparator orders by descending `apy`, so it is modelled by a stable
insertion sort. -/
def sortByApyDesc : List Strategy → List Strategy
  | [] => []
  | s :: ss => insertApyDesc s (sortByApyDesc ss)

/-- Lines 73-75: the sorted copy truncated with `.slice(0, 3)`. -/
def suggestedStrategies (l : List Strategy) : List Strategy :=
  (sortByApyDesc l).take 3

/-- Insert `,` thousands separators: the digit at (0-based) position `i`
from the right is preceded by a separator when `i` is a positive multiple
of 3.  Input and output are in right-to-left order. -/
def groupAux : ℕ → List Char → List Char
  | _, [] => []
  | i, c :: cs => (if 0 < i ∧ i % 3 = 0 then [','] else []) ++ c :: groupAux (i + 1) cs

/-- en-US digit grouping of a decimal digit string. -/
def groupThousands (s : String) : String :=
  String.mk ((groupAux 0 s.data.reverse).reverse)

/-- Decimal rendering of `n` left-padded with zeros to at least
`dec + 1` digits. -/
def natPad (n dec : ℕ) : String :=
  let s := toString n
  if s.length < dec + 1 then String.mk (List.replicate (dec + 1 - s.length) '0') ++ s else s

/-- `|q| * 10 ^ dec` rounded half away from zero, as a natural number. -/
def roundAbsScaled (dec : ℕ) (q : ℚ) : ℕ :=
  (Int.floor (|q| * (10 : ℚ) ^ dec + 1 / 2)).toNat

/-- Modelled from the spec: JS `number.toFixed(dec)` for `dec ≥ 1`,
with decimal round-half-away-from-zero standing in for the
binary-representation rounding of IEEE doubles. -/
def toFixed (dec : ℕ) (q : ℚ) : String :=
  let ds := (natPad (roundAbsScaled dec q) dec).data
  (if q < 0 ∧ roundAbsScaled dec q ≠ 0 then "-" else "")
    ++ String.mk (ds.take (ds.length - dec)) ++ "." ++ String.mk (ds.drop (ds.length - dec))

/-- Modelled from the spec: `value.toLocaleString('en-US',
{ minimumFractionDigits: 2, maximumFractionDigits: 2 })`; `NaN` renders as
`"NaN"`. -/
def toLocaleUsd (v : Option ℚ) : String :=
  match v with
  | none => "NaN"
  | some q =>
      let ds := (natPad (roundAbsScaled 2 q) 2).data
      (if q < 0 ∧ roundAbsScaled 2 q ≠ 0 then "-" else "")
        ++ groupThousands (String.mk (ds.take (ds.length - 2)))
        ++ "." ++ String.mk (ds.drop (ds.length - 2))

/-- Lines 77-78: `` `$${value.toLocaleString('en-US', ...)}` ``. -/
def formatUsd (v : Option ℚ) : String :=
  "$" ++ toLocaleUsd v

/-- Lines 79-80: `address.length > 10 ?
`${address.slice(0, 6)}...${address.slice(-4)}` : address` (three ASCII
periods in the source, not the single ellipsis code point). -/
def formatAddress (a : String) : String :=
  if a.length > 10 then
    String.mk (a.data.take 6) ++ "..." ++ String.mk (a.data.drop (a.data.length - 4))
  else a

/-- Line 82: the opening line of every demo response. -/
def demoHeader : String :=
  "Demo mode: ANTHROPIC_API_KEY is not set, so responses are scripted."

/-- Line 117: the closing disclaimer appended to every demo response. -/
def demoDisclaimer : String :=
  "\n\nThis is a demo with simulated transactions. Always consider risks and impermanent loss."

/-- Lines 111-114: the generic educational branch taken when no truthy
wallet address is present. -/
def genericBody : String :=
  "\n\nYield farming means putting tokens into protocols to earn rewards. Common strategies include lending, staking, and providing liquidity."
    ++ "\nConnect a wallet to see personalized mock balances and strategy suggestions."

/-- Lines 88-91: one rendered balance line;
`balance.token?.symbol || 'TOKEN'` falls back on `undefined` and `""`. -/
def balanceLine (b : Balance) : String :=
  let symbol :=
    match symbolOf b with
    | some s => if s = "" then "TOKEN" else s
    | none => "TOKEN"
  "- " ++ symbol ++ ": " ++ b.balance ++ " (~" ++ formatUsd (some b.valueUSD) ++ ")"

/-- Lines 87-95: the balances section of the wallet branch. -/
def balancesSection (r : BalancesResult) : String :=
  if r.balances.length > 0 then
    "\n\nBalances:\n" ++ String.intercalate "\n" (r.balances.map balanceLine)
  else
    "\n\nBalances: none yet. Connect a wallet to generate mock balances."

/-- Lines 97-101: the positions section of the wallet branch. -/
def positionsSection (ps : List Position) (tpv : Option ℚ) : String :=
  if ps.length > 0 then
    "\n\nActive positions: " ++ toString ps.length ++ " (total " ++ formatUsd tpv ++ ")"
  else
    "\n\nActive positions: none yet."

/-- Lines 104-107: one rendered strategy line.  The separator after the
protocol is the literal three-character sequence U+00E2 U+20AC U+201D
present in the source file. -/
def strategyLine (s : Strategy) : String :=
  "- " ++ s.name ++ " (" ++ s.protocol ++ ") â€” " ++ toFixed 1 s.apy
    ++ "% APY, " ++ s.riskLevel ++ " risk"

/-- Lines 103-109: the suggested-strategies section of the wallet branch
(empty string when no strategy was selected). -/
def strategiesSection (l : List Strategy) : String :=
  if l.length > 0 then
    "\n\nSuggested strategies:\n" ++ String.intercalate "\n" (l.map strategyLine)
  else ""

/-- Lines 85-109: everything the wallet branch appends to the header. -/
def walletBody (a : String) (r : BalancesResult) (ps : List Position) (tpv : Option ℚ)
    (sugg : List Strategy) : String :=
  "\n\nWallet: " ++ formatAddress a ++ "\nTotal balance: " ++ formatUsd (some r.totalValueUSD)
    ++ balancesSection r ++ positionsSection ps tpv ++ strategiesSection sugg

/-- Lines 62-117: the full demo text.  `find` is
`executeFindYieldStrategies` from `~/lib/ai-tools` (not under `src/`),
kept as a parameter; the spec fixes only its call contract. -/
def demoText (find : FindParams → StrategyResult) (walletAddress : Option String)
    (mockBalances : ArrField Balance) (positions : ArrField Position) : String :=
  let balances := mockBalances.normalize
  let positionsList := positions.normalize
  let tpv := totalPositionsValue positionsList
  let balancesResult := executeGetWalletBalances balances
  let strategyResult := find (demoFindParams balances)
  let suggested := suggestedStrategies strategyResult.strategies
  let body :=
    match walletAddress with
    | some a => if a = "" then genericBody else walletBody a balancesResult positionsList tpv suggested
    | none => genericBody
  demoHeader ++ body ++ demoDisclaimer

/-- One frame of the UI message stream protocol (spec §3/§6). -/
inductive Frame where
  | start
  | startStep
  | textStart (id : String)
  | textDelta (id : String) (delta : String)
  | textEnd (id : String)
  | finishStep
  | finish (finishReason : String)
  deriving DecidableEq

/-- Lines 119-129: the exact writer calls of the demo stream, in order. -/
def demoFrames (text : String) : List Frame :=
  [.start, .startStep, .textStart "text-1", .textDelta "text-1" text,
   .textEnd "text-1", .finishStep, .finish "stop"]

/-- Lines 59-60: `apiKey && apiKey !== 'sk-ant-your-key-here'` — the
credential is read from the process environment, where it is either
absent (`none`) or a string; the empty string is falsy. -/
def hasApiKey (apiKey : Option String) : Bool :=
  match apiKey with
  | none => false
  | some s => if s = "" then false else if s = "sk-ant-your-key-here" then false else true

/-- An error thrown with `createError({ statusCode, message })`. -/
structure HError where
  statusCode : ℕ
  message : String
  deriving DecidableEq

/-- What the `try` block produces: a demo frame stream, or a live model
session opened over the request data (lines 134-223; the session itself
is external I/O and outside the embedding). -/
inductive HandlerOk where
  | demo (frames : List Frame)
  | live (messages : List ChatMessage) (walletAddress : Option String)
      (mockBalances : ArrField Balance) (positions : ArrField Position)
  deriving DecidableEq

/-- Lines 49-223: the body of the `try` block.  The `messages` guard
(lines 52-57) throws a `createError` with `statusCode` 400 before the
mode check; otherwise the credential check on lines 59-61 selects demo or
live. -/
def chatHandlerInner (find : FindParams → StrategyResult) (apiKey : Option String)
    (body : Body) : Except HError HandlerOk :=
  match body.messages with
  | .arr ms =>
      if hasApiKey apiKey then
        .ok (.live ms body.walletAddress body.mockBalances body.positions)
      else
        .ok (.demo (demoFrames (demoText find body.walletAddress body.mockBalances body.positions)))
  | _ => .error ⟨400, "Invalid request: messages array required"⟩

/-- The response the route ultimately produces. -/
inductive HandlerResult where
  | demo (frames : List Frame)
  | live (messages : List ChatMessage) (walletAddress : Option String)
      (mockBalances : ArrField Balance) (positions : ArrField Position)
  | err (statusCode : ℕ) (message : String)
  deriving DecidableEq

/-- Lines 47-231: the whole route.  The `catch` block (lines 224-230)
catches every exception thrown inside the `try` — including the
`createError` with `statusCode` 400 thrown by the `messages` guard, since
`H3Error extends Error` — and rethrows `createError({ statusCode: 500,
message: error.message })`. -/
def chatHandler (find : FindParams → StrategyResult) (apiKey : Option String)
    (body : Body) : HandlerResult :=
  match chatHandlerInner find apiKey body with
  | .ok (.demo f) => .demo f
  | .ok (.live ms w mb ps) => .live ms w mb ps
  | .error e => .err 500 e.message

/-- Whether a result is a demo-mode response. -/
def HandlerResult.isDemo : HandlerResult → Bool
  | .demo _ => true
  | _ => false

/-- Whether a result opens a live model session. -/
def HandlerResult.isLive : HandlerResult → Bool
  | .live _ _ _ _ => true
  | _ => false

/-- Argument schema of the `execute_deposit` tool (lines 195-199). -/
structure DepositArgs where
  strategyId : String
  amount : String
  tokenSymbol : String
  deriving DecidableEq

/-- Argument schema of the `withdraw_from_position` tool (lines 212-214). -/
structure WithdrawArgs where
  positionId : String
  deriving DecidableEq

/-- The structured `{ success, error }` value the two mutating tools
return. -/
structure ActionResult where
  success : Bool
  error : String
  deriving DecidableEq

/-- Lines 200-203: the `execute_deposit` execute function.  It is total
(it returns a plain value; it cannot throw) and ignores its arguments. -/
def executeDepositTool (_args : DepositArgs) : ActionResult :=
  ⟨false, "Use client-side deposit action"⟩

/-- Lines 215-218: the `withdraw_from_position` execute function.  Total,
ignores its arguments. -/
def withdrawFromPositionTool (_args : WithdrawArgs) : ActionResult :=
  ⟨false, "Use client-side withdraw action"⟩

/-- The request-scoped store the tool closures capture (the
caller-supplied mock balances and positions). -/
structure StoreState where
  mockBalances : List Balance
  positions : List Position
  deriving DecidableEq

/-- Running `execute_deposit` in the context of the request store:  the
source closure performs no mutation, so the store is returned unchanged
next to the result. -/
def runExecuteDeposit (st : StoreState) (args : DepositArgs) : ActionResult × StoreState :=
  (executeDepositTool args, st)

/-- Running `withdraw_from_position` in the context of the request store;
no mutation. -/
def runWithdrawFromPosition (st : StoreState) (args : WithdrawArgs) :
    ActionResult × StoreState :=
  (withdrawFromPositionTool args, st)

/-- Whether a frame is the `start` frame. -/
def Frame.isStart : Frame → Bool
  | .start => true
  | _ => false

/-- Whether a frame is a `finish` frame. -/
def Frame.isFinish : Frame → Bool
  | .finish _ => true
  | _ => false

/-- Whether a frame is a `text-start` frame. -/
def Frame.isTextStart : Frame → Bool
  | .textStart _ => true
  | _ => false

/-- Whether a frame is a `text-end` frame. -/
def Frame.isTextEnd : Frame → Bool
  | .textEnd _ => true
  | _ => false

/-- Whether a frame is a `text-delta` frame. -/
def Frame.isTextDelta : Frame → Bool
  | .textDelta _ _ => true
  | _ => false

/-! Helper lemmas. -/

/-- String concatenation is associative. -/
theorem str_append_assoc (a b c : String) : a ++ b ++ c = a ++ (b ++ c) :=
  String.append_assoc a b c

/-- Once the accumulator is NaN, the positions sum stays NaN. -/
theorem foldl_nanAdd_none (ps : List Position) :
    ps.foldl (fun sum p => nanAdd sum (posContribution p)) none = none := by
  induction ps with
  | nil => rfl
  | cons p ps ih =>
      rw [List.foldl_cons]
      exact ih

/-- The NaN-propagating fold over positions is an all-or-nothing sum. -/
theorem foldl_nanAdd_some (ps : List Position) (x : ℚ) :
    ps.foldl (fun sum p => nanAdd sum (posContribution p)) (some x) =
      (if ps.all (fun p => (posContribution p).isSome) then
        some (x + (ps.map (fun p => (posContribution p).getD 0)).sum)
      else none) := by
  induction ps generalizing x with
  | nil => simp
  | cons p ps ih =>
      rw [List.foldl_cons]
      cases h : posContribution p with
      | none =>
          have hstep : nanAdd (some x) none = none := by simp [nanAdd]
          rw [hstep, foldl_nanAdd_none]
          simp [List.all_cons, h]
      | some c =>
          have hstep : nanAdd (some x) (some c) = some (x + c) := by simp [nanAdd]
          rw [hstep, ih (x + c)]
          simp [List.all_cons, h, add_assoc]

/-- Inserting into the descending-APY order yields a permutation of the
cons. -/
theorem insertApyDesc_perm (s : Strategy) (t : List Strategy) :
    List.Perm (insertApyDesc s t) (s :: t) := by
  induction t with
  | nil => exact List.Perm.refl _
  | cons u us ih =>
      by_cases h : u.apy ≤ s.apy
      · simp [insertApyDesc, h]
      · simp only [insertApyDesc, if_neg h]
        exact (ih.cons u).trans (List.Perm.swap s u us)

/-- Inserting into a descending-APY-sorted list keeps it sorted. -/
theorem insertApyDesc_pairwise (s : Strategy) (t : List Strategy)
    (h : List.Pairwise (fun a b : Strategy => b.apy ≤ a.apy) t) :
    List.Pairwise (fun a b : Strategy => b.apy ≤ a.apy) (insertApyDesc s t) := by
  induction t with
  | nil => simp [insertApyDesc]
  | cons u us ih =>
      rcases List.pairwise_cons.1 h with ⟨hu, hus⟩
      by_cases hle : u.apy ≤ s.apy
      · simp only [insertApyDesc, if_pos hle]
        refine List.pairwise_cons.2 ⟨?_, h⟩
        intro b hb
        rcases List.mem_cons.1 hb with rfl | hb2
        · exact hle
        · exact le_trans (hu b hb2) hle
      · simp only [insertApyDesc, if_neg hle]
        refine List.pairwise_cons.2 ⟨?_, ih hus⟩
        intro b hb
        have hmem : b = s ∨ b ∈ us := by
          simpa using (insertApyDesc_perm s us).mem_iff.1 hb
        rcases hmem with rfl | hb2
        · exact le_of_lt (lt_of_not_le hle)
        · exact hu b hb2

/-- Stability of the insertion step: elements of any fixed APY keep
their relative order (the inserted element passes only strictly larger
APYs). -/
theorem filter_insertApyDesc (s : Strategy) (t : List Strategy) (q : ℚ) :
    (insertApyDesc s t).filter (fun x => decide (x.apy = q)) =
      ((s :: t).filter (fun x => decide (x.apy = q))) := by
  induction t with
  | nil => rfl
  | cons u us ih =>
      by_cases hle : u.apy ≤ s.apy
      · simp [insertApyDesc, hle]
      · simp only [insertApyDesc, if_neg hle]
        by_cases hu : u.apy = q <;> by_cases hs : s.apy = q
        · exact absurd (le_of_eq (hu.trans hs.symm)) hle
        · simp [List.filter_cons, hu, hs, ih]
        · simp [List.filter_cons, hu, hs, ih]
        · simp [List.filter_cons, hu, hs, ih]

/-- The sorted copy is a permutation of its input. -/
theorem sortByApyDesc_perm (l : List Strategy) : List.Perm (sortByApyDesc l) l := by
  induction l with
  | nil => exact List.Perm.refl _
  | cons s ss ih => exact (insertApyDesc_perm s (sortByApyDesc ss)).trans (ih.cons s)

/-- The sorted copy is pairwise descending by APY. -/
theorem sortByApyDesc_pairwise (l : List Strategy) :
    List.Pairwise (fun a b : Strategy => b.apy ≤ a.apy) (sortByApyDesc l) := by
  induction l with
  | nil => simp [sortByApyDesc]
  | cons s ss ih => exact insertApyDesc_pairwise s (sortByApyDesc ss) ih

/-- Stability of the sort: for every APY value `q`, the elements of APY
`q` appear in the sorted copy exactly in their original order. -/
theorem sortByApyDesc_filter (l : List Strategy) (q : ℚ) :
    (sortByApyDesc l).filter (fun x => decide (x.apy = q)) =
      l.filter (fun x => decide (x.apy = q)) := by
  induction l with
  | nil => rfl
  | cons s ss ih =>
      calc (sortByApyDesc (s :: ss)).filter (fun x => decide (x.apy = q))
          = ((s :: sortByApyDesc ss).filter (fun x => decide (x.apy = q))) :=
            filter_insertApyDesc s (sortByApyDesc ss) q
        _ = ((s :: ss).filter (fun x => decide (x.apy = q))) := by
            by_cases hs : s.apy = q <;> simp [List.filter_cons, hs, ih]

/-- Membership in the demo token filter: exactly the non-empty symbols of
the supplied balances. -/
theorem mem_tokenSymbols (bs : List Balance) (s : String) :
    s ∈ tokenSymbols bs ↔ s ≠ "" ∧ ∃ b ∈ bs, symbolOf b = some s := by
  constructor
  · intro h
    rcases List.mem_filterMap.1 h with ⟨o, ho, hf⟩
    rcases o with _ | t
    · simp at hf
    · by_cases ht : t = ""
      · simp [ht] at hf
      · simp only [if_neg ht, Option.some.injEq] at hf
        subst hf
        rcases List.mem_map.1 ho with ⟨b, hb, hob⟩
        exact ⟨ht, b, hb, hob⟩
  · rintro ⟨hs, b, hb, hob⟩
    exact List.mem_filterMap.2 ⟨some s, List.mem_map.2 ⟨b, hb, hob⟩, by simp [hs]⟩

/-! Claim theorems. -/

/-- C1: an absent or non-array `messages` field makes the try-block throw
the 400 `InvalidRequest` error before any mode logic (the outcome is the
same for every credential configuration), but the route's catch block
rewraps every thrown error, so the response actually delivered is a 500
carrying the `InvalidRequest` message — not the 400-equivalent response
the claim (and line 54 of the source itself) intends, and not distinct in
status from the generic downstream failure. -/
theorem invalid_messages_rewrapped_as_500 (find : FindParams → StrategyResult)
    (apiKey : Option String) (w : Option String) (mb : ArrField Balance)
    (ps : ArrField Position) :
    chatHandlerInner find apiKey ⟨.absent, w, mb, ps⟩ =
      .error ⟨400, "Invalid request: messages array required"⟩
  ∧ chatHandlerInner find apiKey ⟨.nonArray, w, mb, ps⟩ =
      .error ⟨400, "Invalid request: messages array required"⟩
  ∧ chatHandler find apiKey ⟨.absent, w, mb, ps⟩ =
      .err 500 "Invalid request: messages array required"
  ∧ chatHandler find apiKey ⟨.nonArray, w, mb, ps⟩ =
      .err 500 "Invalid request: messages array required" :=
  ⟨rfl, rfl, rfl, rfl⟩

/-- C2: with no usable credential, the handler's response is the same for
any two well-formed `messages` arrays and equals the demo frame stream of
`demoText find w mb ps`: the rendered demo text is a pure function of
exactly `(walletAddress, mockBalances, positions)` (relative to the
deterministic external strategy searcher `find`). -/
theorem demo_output_pure (apiKey : Option String) (hk : hasApiKey apiKey = false)
    (find : FindParams → StrategyResult) (w : Option String) (mb : ArrField Balance)
    (ps : ArrField Position) (m1 m2 : List ChatMessage) :
    chatHandler find apiKey ⟨.arr m1, w, mb, ps⟩ = chatHandler find apiKey ⟨.arr m2, w, mb, ps⟩
  ∧ chatHandler find apiKey ⟨.arr m1, w, mb, ps⟩ =
      .demo (demoFrames (demoText find w mb ps)) := by
  constructor <;> simp [chatHandler, chatHandlerInner, hk]

/-- Witness for `demo_output_pure` at a concrete input. -/
theorem demo_output_pure_witness :
    chatHandler (fun _ => ⟨[]⟩) none ⟨.arr [⟨"user", "hi"⟩], none, .absent, .absent⟩ =
      chatHandler (fun _ => ⟨[]⟩) none ⟨.arr [], none, .absent, .absent⟩ :=
  (demo_output_pure none rfl (fun _ => ⟨[]⟩) none .absent .absent [⟨"user", "hi"⟩] []).1

/-- C3: the demo response stream is exactly start, start-step,
text-start, ONE text-delta carrying the whole rendered text, text-end,
finish-step, finish(stop); the single text-start/text-end pair shares the
id "text-1" with no other text block interleaved, exactly one start comes
first and exactly one finish comes last. -/
theorem demo_stream_frames (apiKey : Option String) (hk : hasApiKey apiKey = false)
    (find : FindParams → StrategyResult) (w : Option String) (mb : ArrField Balance)
    (ps : ArrField Position) (ms : List ChatMessage) :
    chatHandler find apiKey ⟨.arr ms, w, mb, ps⟩ =
      .demo (demoFrames (demoText find w mb ps))
  ∧ ∀ text : String,
      demoFrames text =
        [.start, .startStep, .textStart "text-1", .textDelta "text-1" text,
         .textEnd "text-1", .finishStep, .finish "stop"]
    ∧ (demoFrames text).head? = some .start
    ∧ (demoFrames text).countP Frame.isStart = 1
    ∧ (demoFrames text).getLast? = some (.finish "stop")
    ∧ (demoFrames text).countP Frame.isFinish = 1
    ∧ (demoFrames text).countP Frame.isTextStart = 1
    ∧ (demoFrames text).countP Frame.isTextEnd = 1
    ∧ (demoFrames text).countP Frame.isTextDelta = 1 := by
  exact ⟨by simp [chatHandler, chatHandlerInner, hk],
    fun text => ⟨rfl, rfl, rfl, rfl, rfl, rfl, rfl, rfl⟩⟩

/-- Witness for `demo_stream_frames` at a concrete input. -/
theorem demo_stream_frames_witness :
    chatHandler (fun _ => ⟨[]⟩) none ⟨.arr [], none, .absent, .absent⟩ =
      .demo (demoFrames (demoText (fun _ => ⟨[]⟩) none .absent .absent))
  ∧ (demoFrames (demoText (fun _ => ⟨[]⟩) none .absent .absent)).countP Frame.isStart = 1 :=
  ⟨(demo_stream_frames none rfl (fun _ => ⟨[]⟩) none .absent .absent []).1,
   ((demo_stream_frames none rfl (fun _ => ⟨[]⟩) none .absent .absent []).2
     (demoText (fun _ => ⟨[]⟩) none .absent .absent)).2.2.1⟩

/-- C4 counterexample: the empty-string credential is present (not
absent) and differs from the placeholder, yet the handler takes the Demo
path, not the Live path the claim requires for every
non-absent, non-placeholder credential. -/
theorem empty_credential_goes_demo :
    (some "" ≠ (none : Option String))
  ∧ ("" ≠ "sk-ant-your-key-here")
  ∧ (chatHandler (fun _ => ⟨[]⟩) (some "") ⟨.arr [], none, .absent, .absent⟩).isDemo = true
  ∧ (chatHandler (fun _ => ⟨[]⟩) (some "") ⟨.arr [], none, .absent, .absent⟩).isLive = false :=
  ⟨by decide, by decide, rfl, rfl⟩

/-- C4 (amended): the handler takes the Demo path — producing the demo
frame stream and never the live model session — exactly when the
credential is absent, the empty string, or the placeholder
"sk-ant-your-key-here"; for any other credential it takes the Live
path. -/
theorem mode_selection (find : FindParams → StrategyResult) (apiKey : Option String)
    (ms : List ChatMessage) (w : Option String) (mb : ArrField Balance)
    (ps : ArrField Position) :
    (hasApiKey apiKey = false ↔
      apiKey = none ∨ apiKey = some "" ∨ apiKey = some "sk-ant-your-key-here")
  ∧ (hasApiKey apiKey = false →
      chatHandler find apiKey ⟨.arr ms, w, mb, ps⟩ =
        .demo (demoFrames (demoText find w mb ps)))
  ∧ (hasApiKey apiKey = true →
      chatHandler find apiKey ⟨.arr ms, w, mb, ps⟩ = .live ms w mb ps) := by
  refine ⟨?_, fun h => by simp [chatHandler, chatHandlerInner, h],
    fun h => by simp [chatHandler, chatHandlerInner, h]⟩
  cases apiKey with
  | none => simp [hasApiKey]
  | some s =>
      by_cases h1 : s = ""
      · simp [hasApiKey, h1]
      · by_cases h2 : s = "sk-ant-your-key-here"
        · simp [hasApiKey, h1, h2]
        · simp [hasApiKey, h1, h2]

/-- Witness for `mode_selection`: a real-looking key goes Live, an
absent key goes Demo. -/
theorem mode_selection_witness :
    chatHandler (fun _ => ⟨[]⟩) (some "sk-ant-abc123") ⟨.arr [], none, .absent, .absent⟩ =
      .live [] none .absent .absent
  ∧ chatHandler (fun _ => ⟨[]⟩) none ⟨.arr [], none, .absent, .absent⟩ =
      .demo (demoFrames (demoText (fun _ => ⟨[]⟩) none .absent .absent)) :=
  ⟨(mode_selection (fun _ => ⟨[]⟩) (some "sk-ant-abc123") [] none .absent .absent).2.2 rfl,
   (mode_selection (fun _ => ⟨[]⟩) none [] none .absent .absent).2.1 rfl⟩

/-- C5 counterexample: at the claim's own example address the code
renders three ASCII periods, not the single ellipsis code point U+2026
the claim specifies. -/
theorem formatAddress_ellipsis_counterexample :
    formatAddress "0xABCDEF1234567890" = "0xABCD...7890"
  ∧ formatAddress "0xABCDEF1234567890" ≠ "0xABCD…7890" :=
  ⟨by decide, by decide⟩

/-- C5 (amended): addresses of length at most 10 render unchanged;
longer ones render as the first 6 characters, the three ASCII periods
"...", and the last 4 characters — so the example address renders as
"0xABCD...7890". -/
theorem formatAddress_spec (a : String) :
    (a.length ≤ 10 → formatAddress a = a)
  ∧ (10 < a.length →
      (formatAddress a).data =
        a.data.take 6 ++ ['.', '.', '.'] ++ a.data.drop (a.data.length - 4))
  ∧ formatAddress "0xABCDEF1234567890" = "0xABCD...7890" := by
  refine ⟨fun h => ?_, fun h => ?_, by decide⟩
  · simp [formatAddress, Nat.not_lt.2 h]
  · simp [formatAddress, h, String.data_append]

/-- Witness for `formatAddress_spec` on both length branches. -/
theorem formatAddress_spec_witness :
    formatAddress "0x12345678" = "0x12345678"
  ∧ (formatAddress "0xABCDEF1234567890").data =
      "0xABCDEF1234567890".data.take 6 ++ ['.', '.', '.']
        ++ "0xABCDEF1234567890".data.drop ("0xABCDEF1234567890".data.length - 4) :=
  ⟨(formatAddress_spec "0x12345678").1 (by decide),
   (formatAddress_spec "0xABCDEF1234567890").2.1 (by decide)⟩

/-- C6 counterexample: a position whose `currentValue` is the truthy
non-numeric string "abc" yields a NaN total (`Number("abc")` poisons the
whole reduce), not the 0 contribution the claim specifies. -/
theorem totalPositionsValue_nan_counterexample :
    totalPositionsValue [⟨JsValue.str "abc"⟩] = none
  ∧ totalPositionsValue [⟨JsValue.str "abc"⟩] ≠ some 0 :=
  ⟨rfl, by decide⟩

/-- C6 (amended): the demo total position value is the NaN-propagating
sum of `Number(currentValue || 0)` over the positions — a missing,
null or otherwise falsy `currentValue` contributes 0 and a numeric one
its value, but if any truthy `currentValue` fails to convert to a number
the whole total is NaN rather than that entry contributing 0; for the
empty list the total is 0 and, in the wallet branch, the rendered text
shows the "Active positions: none yet." line. -/
theorem totalPositionsValue_spec (ps : List Position) (find : FindParams → StrategyResult)
    (a : String) (mb : ArrField Balance) (ha : a ≠ "") :
    totalPositionsValue ps =
      (if ps.all (fun p => (posContribution p).isSome) then
        some ((ps.map (fun p => (posContribution p).getD 0)).sum)
      else none)
  ∧ totalPositionsValue [] = some 0
  ∧ posContribution ⟨.undef⟩ = some 0
  ∧ posContribution ⟨.nullv⟩ = some 0
  ∧ (∀ q : ℚ, posContribution ⟨.num q⟩ = some q)
  ∧ (∃ pre post,
      demoText find (some a) mb (.arr []) = pre ++ "\n\nActive positions: none yet." ++ post) := by
  refine ⟨?_, rfl, rfl, rfl, fun q => ?_, ?_⟩
  · simpa [totalPositionsValue] using foldl_nanAdd_some ps 0
  · by_cases hq : q = 0 <;>
      simp [posContribution, jsOr, JsValue.truthy, JsValue.toNumber, hq]
  · refine ⟨demoHeader ++ ("\n\nWallet: " ++ formatAddress a ++ "\nTotal balance: "
        ++ formatUsd (some (executeGetWalletBalances mb.normalize).totalValueUSD)
        ++ balancesSection (executeGetWalletBalances mb.normalize)),
      strategiesSection (suggestedStrategies (find (demoFindParams mb.normalize)).strategies)
        ++ demoDisclaimer, ?_⟩
    simp [demoText, walletBody, positionsSection, ha, str_append_assoc,
      ArrField.normalize, totalPositionsValue]

/-- Witness for `totalPositionsValue_spec` at a concrete input. -/
theorem totalPositionsValue_spec_witness :
    totalPositionsValue [] = some 0
  ∧ (∃ pre post,
      demoText (fun _ => ⟨[]⟩) (some "0xabc") .absent (.arr []) =
        pre ++ "\n\nActive positions: none yet." ++ post) :=
  ⟨(totalPositionsValue_spec [] (fun _ => ⟨[]⟩) "0xabc" .absent (by decide)).2.1,
   (totalPositionsValue_spec [] (fun _ => ⟨[]⟩) "0xabc" .absent (by decide)).2.2.2.2.2⟩

/-- C7: the demo suggested strategies are the first at most 3 entries of
the APY-descending stable sort of the search result: the sorted copy is a
permutation of the result, is pairwise descending in APY, and preserves
the original relative order of equal-APY entries (for every APY value the
equal-APY subsequence is unchanged). -/
theorem suggestedStrategies_spec (l : List Strategy) (_h : l ≠ []) :
    suggestedStrategies l = (sortByApyDesc l).take 3
  ∧ (suggestedStrategies l).length ≤ 3
  ∧ List.Perm (sortByApyDesc l) l
  ∧ List.Pairwise (fun a b : Strategy => b.apy ≤ a.apy) (sortByApyDesc l)
  ∧ (∀ q : ℚ, (sortByApyDesc l).filter (fun x => decide (x.apy = q)) =
      l.filter (fun x => decide (x.apy = q))) :=
  ⟨rfl, by simp [suggestedStrategies],
   sortByApyDesc_perm l, sortByApyDesc_pairwise l, fun q => sortByApyDesc_filter l q⟩

/-- Witness for `suggestedStrategies_spec` on a concrete two-element
result set. -/
theorem suggestedStrategies_spec_witness :
    suggestedStrategies [⟨"a", "A", "P", 5, "Low"⟩, ⟨"b", "B", "Q", 7, "High"⟩] =
      (sortByApyDesc [⟨"a", "A", "P", 5, "Low"⟩, ⟨"b", "B", "Q", 7, "High"⟩]).take 3
  ∧ List.Perm (sortByApyDesc [⟨"a", "A", "P", 5, "Low"⟩, ⟨"b", "B", "Q", 7, "High"⟩])
      [⟨"a", "A", "P", 5, "Low"⟩, ⟨"b", "B", "Q", 7, "High"⟩] :=
  ⟨(suggestedStrategies_spec _ (by decide)).1,
   (suggestedStrategies_spec _ (by decide)).2.2.1⟩

/-- C8: the `execute_deposit` and `withdraw_from_position` execute
functions are total — for every input they return the structured
`{ success: false, error }` value rather than throwing — and running them
leaves the request store (mock balances and positions) unchanged. -/
theorem mutating_tools_disabled (st : StoreState) (d : DepositArgs) (w : WithdrawArgs) :
    runExecuteDeposit st d = (⟨false, "Use client-side deposit action"⟩, st)
  ∧ runWithdrawFromPosition st w = (⟨false, "Use client-side withdraw action"⟩, st)
  ∧ (executeDepositTool d).success = false
  ∧ (withdrawFromPositionTool w).success = false
  ∧ (runExecuteDeposit st d).2 = st
  ∧ (runWithdrawFromPosition st w).2 = st :=
  ⟨rfl, rfl, rfl, rfl, rfl, rfl⟩

/-- C9: the demo strategy search is invoked with no token constraint
exactly when the normalized balances contain no (non-empty) token symbol,
and otherwise with a token list whose members are exactly the non-empty
symbols present in the balances; the other two filters are always
unconstrained. -/
theorem demo_find_tokens (bs : List Balance) :
    ((demoFindParams bs).tokens = none ↔
      ∀ b ∈ bs, ∀ s, symbolOf b = some s → s = "")
  ∧ (∀ l, (demoFindParams bs).tokens = some l →
      ∀ s : String, (s ∈ l ↔ s ≠ "" ∧ ∃ b ∈ bs, symbolOf b = some s))
  ∧ (demoFindParams bs).minAPY = none
  ∧ (demoFindParams bs).riskLevel = none := by
  have hnil : (demoFindParams bs).tokens = none ↔ tokenSymbols bs = [] := by
    by_cases h : tokenSymbols bs = []
    · simp [demoFindParams, h]
    · have hlen : 0 < (tokenSymbols bs).length := List.length_pos.2 h
      simp [demoFindParams, hlen, h]
  refine ⟨?_, ?_, rfl, rfl⟩
  · rw [hnil]
    constructor
    · intro h b hb s hsym
      by_contra hs
      have hmem : s ∈ tokenSymbols bs := (mem_tokenSymbols bs s).2 ⟨hs, b, hb, hsym⟩
      simp [h] at hmem
    · intro h
      by_contra hne
      rcases List.exists_mem_of_ne_nil _ hne with ⟨s, hsmem⟩
      rcases (mem_tokenSymbols bs s).1 hsmem with ⟨hs, b, hb, hsym⟩
      exact hs (h b hb s hsym)
  · intro l hl s
    have hsome : l = tokenSymbols bs := by
      by_cases h : (tokenSymbols bs).length > 0
      · simp [demoFindParams, h] at hl
        exact hl.symm
      · simp [demoFindParams, h] at hl
    rw [hsome]
    exact mem_tokenSymbols bs s

/-- Witness for `demo_find_tokens` at a one-balance wallet. -/
theorem demo_find_tokens_witness :
    "USDC" ∈ ["USDC"] ↔ "USDC" ≠ ""
      ∧ ∃ b ∈ [(⟨some ⟨some "USDC"⟩, "100", 100⟩ : Balance)], symbolOf b = some "USDC" :=
  (demo_find_tokens [⟨some ⟨some "USDC"⟩, "100", 100⟩]).2.1 ["USDC"] rfl "USDC"

/-- C10: an empty-string `walletAddress` is falsy, so the demo renderer
takes the same generic educational branch as an absent address: the
rendered text is the fixed generic string (header, educational body,
disclaimer) with no personalized section, and the full handler response
equals the absent-address response. -/
theorem empty_wallet_generic (find : FindParams → StrategyResult) (ms : List ChatMessage)
    (mb : ArrField Balance) (ps : ArrField Position) :
    demoText find (some "") mb ps = demoText find none mb ps
  ∧ demoText find (some "") mb ps = demoHeader ++ genericBody ++ demoDisclaimer
  ∧ chatHandler find none ⟨.arr ms, some "", mb, ps⟩ =
      chatHandler find none ⟨.arr ms, none, mb, ps⟩ :=
  ⟨rfl, rfl, rfl⟩

end BeybChat
